import Mathlib

/-!
Shallow embedding of the `taiki-ts-util` dependency-injection utility.

Source files embedded here:
- `src/README.md` (second segment): `class Container` with `_providers`,
  `resolve`, `reserve`, `provider`, and the module-level singleton
  `export const container = new Container()`;
- `src/src/di/di.ts`: the `Inject` and `Injectable` decorator factories;
- `src/unnamed/part_001` (consumer.ts): the `TimeService` and `Consumer`
  classes.

JavaScript values are modelled by the inductive `JSValue`; object identity
is modelled by a numeric id carried by every object-shaped constructor, so
"same-identity" in the spec becomes equality of `JSValue`. A JS object used
as a map (`_providers`) is modelled as an association list in insertion
order, with `setKey` mirroring JS property assignment (update in place,
append when fresh) and lodash `find` mirrored by first-match scanning in
that order. A JS `throw` is modelled with `Except`.
-/

namespace TaikiDI

/-- Universe of the JavaScript values that occur in this repository.
`jsObj` is an opaque object (identity `id`); `mockGetCurrentDate id ret`
is an object whose `getCurrentDate()` method returns `ret`;
`timeServiceInst` is an instance of the real `TimeService` class;
`dateObj id iso` is a `Date` whose `toISOString()` returns `iso`. -/
inductive JSValue where
  | undef
  | jsNull
  | jsBool (b : Bool)
  | jsNum (n : Int)
  | jsStr (s : String)
  | jsObj (id : Nat)
  | mockGetCurrentDate (id : Nat) (ret : JSValue)
  | timeServiceInst (id : Nat)
  | dateObj (id : Nat) (iso : String)
  deriving DecidableEq, Repr

/-- JavaScript truthiness: `undefined`, `null`, `false`, `0` and the empty
string are falsy; every object is truthy. -/
def truthy : JSValue → Bool
  | .undef => false
  | .jsNull => false
  | .jsBool b => b
  | .jsNum n => n != 0
  | .jsStr s => s != ""
  | .jsObj _ => true
  | .mockGetCurrentDate _ _ => true
  | .timeServiceInst _ => true
  | .dateObj _ _ => true

/-- The `_providers` object of a `Container`: string-keyed own properties
in insertion order. -/
abbrev Providers := List (String × JSValue)

/-- JS property assignment `obj[token] = v`: overwrite in place when the
key exists, append at the end when it is fresh. -/
def setKey : Providers → String → JSValue → Providers
  | [], t, v => [(t, v)]
  | (k, w) :: rest, t, v =>
    if k = t then (t, v) :: rest else (k, w) :: setKey rest t v

/-- The keys of a providers object. -/
def keysOf (ps : Providers) : List String := ps.map Prod.fst

/-- A JS object never holds two own properties with the same key. -/
def keysUnique (ps : Providers) : Prop := (keysOf ps).Nodup

/-- Whether an entry (of any value, truthy or falsy) exists for a key. -/
def hasKey (ps : Providers) (t : String) : Bool :=
  ps.any (fun e => e.1 == t)

/-- The value stored under a key, when an entry exists (first match in
insertion order, as lodash iterates). -/
def findVal (ps : Providers) (t : String) : Option JSValue :=
  (ps.find? (fun e => e.1 == t)).map Prod.snd

/-- lodash `find(object, pred)`: scan own enumerable entries in insertion
order, return the first value where `pred value key` holds, else
`undefined`. -/
def lodashFind (ps : Providers) (pred : JSValue → String → Bool) : JSValue :=
  match ps.find? (fun e => pred e.2 e.1) with
  | some e => e.2
  | none => .undef

namespace Container

/-- `Container.resolve(token)` from the README source: lodash `find` with
predicate `(_provider, key) => key === token`, then a truthiness test on
`matchedProvider`; falsy results (including the `undefined` of a miss)
throw `new Error` with the template message. -/
def resolve (ps : Providers) (token : String) : Except String JSValue :=
  let matchedProvider := lodashFind ps (fun _provider key => key == token)
  if truthy matchedProvider then
    .ok matchedProvider
  else
    .error ("No provider found for " ++ token)

/-- The argument record of `Container.provider`. -/
structure IContainerProvider where
  userValue : JSValue
  token : String

/-- `Container.provider(details)`: `this._providers[details.token] =
details.userValue`, acting on the receiver's own map. -/
def provider (thisProviders : Providers) (details : IContainerProvider) :
    Providers :=
  setKey thisProviders details.token details.userValue

/-- A zero-argument class/factory: `new target()` either produces an
instance or throws. -/
abbrev Ctor := Unit → Except String JSValue

/-- `Container.reserve(token, target)`: evaluates `new target()` first;
on success assigns the instance into the module singleton
`container._providers` (NOT the receiver's `this._providers`); a throw
from the constructor aborts before any assignment. Returns the outcome
together with the receiver's map and the singleton's map after the call. -/
def reserveSt (recvProviders singletonProviders : Providers)
    (token : String) (target : Ctor) :
    Except String Unit × Providers × Providers :=
  match target () with
  | .ok inst => (.ok (), recvProviders, setKey singletonProviders token inst)
  | .error e => (.error e, recvProviders, singletonProviders)

end Container

/-- Reading a property installed by `Inject(token)` from di.ts: the getter
is `() => container.resolve(token)`, evaluated against the singleton's
current providers on every read. -/
def injectGet (token : String) (singletonProviders : Providers) :
    Except String JSValue :=
  Container.resolve singletonProviders token

/-- The results of `n` consecutive reads of an `Inject(token)` property
with no intervening container mutation: each read runs the getter against
the same singleton state. -/
def injectReads (token : String) (singletonProviders : Providers) (n : Nat) :
    List (Except String JSValue) :=
  (List.range n).map (fun _ => injectGet token singletonProviders)

/-- `new target()` for a well-formed class, with explicit allocation of a
fresh object identity: returns the instance and the next free id. -/
def construct (nextId : Nat) : JSValue × Nat := (.jsObj nextId, nextId + 1)

/-- Applying `Injectable(token)` to a class at its definition: di.ts calls
`container.reserve(token, target)`, which runs `new target()` once, eagerly,
and stores the instance in the singleton map. The decorator returns
nothing, so the class itself (here: `construct`) is untouched. -/
def injectableApply (token : String) (singletonProviders : Providers)
    (nextId : Nat) : Providers × Nat :=
  let (inst, n2) := construct nextId
  (setKey singletonProviders token inst, n2)

/-- A container mutation: a successful `reserve` (storing a constructed
instance) or a `provider` override. -/
inductive Op where
  | reserveOp (token : String) (instId : Nat)
  | providerOp (token : String) (v : JSValue)

/-- The token an operation registers or overrides. -/
def Op.tok : Op → String
  | .reserveOp t _ => t
  | .providerOp t _ => t

/-- Effect of one mutation on the singleton map. -/
def applyOp (ps : Providers) : Op → Providers
  | .reserveOp t instId => setKey ps t (.jsObj instId)
  | .providerOp t v => setKey ps t v

/-- A whole history of registrations and overrides, from an empty map. -/
def applyOps (ps : Providers) (ops : List Op) : Providers :=
  ops.foldl applyOp ps

/-- Substring containment, for "the error message contains the token". -/
def containsSubstr (s sub : String) : Prop :=
  ∃ pre post, s = pre ++ sub ++ post

/-- A thrown JavaScript exception during `Consumer` construction: either
the `Error` thrown by `resolve` (carrying its message) or the `TypeError`
raised when a member that is not a function is called. -/
inductive JSErr where
  | thrown (msg : String)
  | typeError
  deriving DecidableEq, Repr

/-- Method lookup + call `x.getCurrentDate()`: the mock returns its fixed
value; the real `TimeService` returns `new Date(Date.now())`, modelled by
`dateObj 0 now` where `now` is the ambient clock reading; any other value
has no `getCurrentDate` member, so the call raises a TypeError (`none`). -/
def callGetCurrentDate (now : String) : JSValue → Option JSValue
  | .mockGetCurrentDate _ ret => some ret
  | .timeServiceInst _ => some (.dateObj 0 now)
  | _ => none

/-- Method lookup + call `x.toISOString()`: only `Date` objects have it;
in particular a plain string has no `toISOString`, so the call raises a
TypeError (`none`). -/
def callToISOString : JSValue → Option String
  | .dateObj _ iso => some iso
  | _ => none

/-- The `Consumer` constructor from consumer.ts:
`this.currentDate = this.timeService.getCurrentDate().toISOString()`.
Reading `this.timeService` runs the `Inject("timeService")` getter against
the singleton providers `ps`. Returns the `currentDate` field (or the
exception) paired with the number of times `getCurrentDate` was invoked on
the resolved service during construction; each invocation passes no
arguments (the model's call sites take none). -/
def consumerConstruct (now : String) (ps : Providers) :
    Except JSErr String × Nat :=
  match injectGet "timeService" ps with
  | .error msg => (.error (.thrown msg), 0)
  | .ok ts =>
    match callGetCurrentDate now ts with
    | none => (.error .typeError, 0)
    | some ret =>
      match callToISOString ret with
      | none => (.error .typeError, 1)
      | some s => (.ok s, 1)

/-- The mock of the C3 scenario: an object whose `getCurrentDate` is a
zero-argument function returning the string "2020-08-12". -/
def mockStrM : JSValue := .mockGetCurrentDate 7 (.jsStr "2020-08-12")

/-- The singleton providers after the module of consumer.ts has loaded:
`Injectable("timeService")` stored a real `TimeService` instance and
`Injectable("consumer")` stored the eagerly built `Consumer` instance. -/
def loadedPs : Providers :=
  [("timeService", .timeServiceInst 0), ("consumer", .jsObj 1)]

/-- The singleton providers after the C3 override: `container.provider`
called with token "timeService" and userValue `mockStrM`. -/
def overriddenPs : Providers :=
  Container.provider loadedPs ⟨mockStrM, "timeService"⟩

/-! Helper lemmas about `setKey`, lodash `find` and `resolve`. -/

/-- After `setKey ps t v`, the first entry whose key equals `t` is
exactly `(t, v)`: assignment either rewrote the first such entry in place
or appended a fresh one at the end. -/
theorem find_setKey_self (ps : Providers) (t : String) (v : JSValue) :
    (setKey ps t v).find? (fun e => e.1 == t) = some (t, v) := by
  induction ps with
  | nil => simp [setKey]
  | cons hd tl ih =>
    obtain ⟨k, w⟩ := hd
    by_cases h : k = t
    · subst h
      simp [setKey]
    · simp [setKey, h, List.find?, ih]

/-- `findVal` after an assignment to the same key. -/
theorem findVal_setKey (ps : Providers) (t : String) (v : JSValue) :
    findVal (setKey ps t v) t = some v := by
  simp [findVal, find_setKey_self]

/-- `resolve` right after an assignment to the same key: the truthiness
test of the source decides between returning the stored value and
throwing. -/
theorem resolve_setKey (ps : Providers) (t : String) (v : JSValue) :
    Container.resolve (setKey ps t v) t =
      if truthy v then Except.ok v
      else Except.error ("No provider found for " ++ t) := by
  simp only [Container.resolve, lodashFind, find_setKey_self]

/-- `resolve` in terms of the first stored entry for the token. -/
theorem resolve_of_findVal (ps : Providers) (t : String) (v : JSValue)
    (h : findVal ps t = some v) :
    Container.resolve ps t =
      if truthy v then Except.ok v
      else Except.error ("No provider found for " ++ t) := by
  unfold findVal at h
  cases hf : ps.find? (fun e => e.1 == t) with
  | none => rw [hf] at h; simp at h
  | some e =>
    rw [hf] at h
    simp only [Option.map_some', Option.some.injEq] at h
    subst h
    simp only [Container.resolve, lodashFind, hf]

/-- A key present after an assignment was either the assigned key or was
present before. -/
theorem mem_keysOf_setKey {m : String} (ps : Providers) (t : String)
    (v : JSValue) (h : m ∈ keysOf (setKey ps t v)) :
    m = t ∨ m ∈ keysOf ps := by
  induction ps with
  | nil => simpa [setKey, keysOf] using h
  | cons hd tl ih =>
    obtain ⟨k, w⟩ := hd
    by_cases hk : k = t
    · subst hk
      simpa [setKey, keysOf] using h
    · simp only [setKey, if_neg hk, keysOf, List.map_cons, List.mem_cons] at h ⊢
      rcases h with h | h
      · exact Or.inr (Or.inl h)
      · rcases ih h with h2 | h2
        · exact Or.inl h2
        · exact Or.inr (Or.inr h2)

/-- JS property assignment keeps the keys of an object free of
duplicates. -/
theorem keysUnique_setKey (ps : Providers) (t : String) (v : JSValue)
    (h : keysUnique ps) : keysUnique (setKey ps t v) := by
  induction ps with
  | nil => simp [setKey, keysUnique, keysOf]
  | cons hd tl ih =>
    obtain ⟨k, w⟩ := hd
    simp only [keysUnique, keysOf, List.map_cons, List.nodup_cons] at h
    by_cases hk : k = t
    · subst hk
      simpa [setKey, keysUnique, keysOf] using h
    · have htl := ih h.2
      simp only [setKey, if_neg hk, keysUnique, keysOf, List.map_cons,
        List.nodup_cons]
      refine ⟨?_, htl⟩
      intro hmem
      rcases mem_keysOf_setKey tl t v hmem with h2 | h2
      · exact hk h2
      · exact h.1 h2

/-- When no stored key equals the token, `resolve` throws the
no-provider error: lodash `find` returns `undefined`, which is falsy. -/
theorem resolve_of_no_key (ps : Providers) (t : String)
    (h : ∀ k ∈ keysOf ps, k ≠ t) :
    Container.resolve ps t =
      Except.error ("No provider found for " ++ t) := by
  have hf : ps.find? (fun e => e.1 == t) = none := by
    rw [List.find?_eq_none]
    intro e he
    simpa using h e.1 (List.mem_map_of_mem Prod.fst he)
  simp [Container.resolve, lodashFind, hf, truthy]

/-- A history of registrations and overrides that never touches token `t`
leaves every key different from `t`. -/
theorem keys_applyOps_avoid (ops : List Op) (t : String) (ps : Providers)
    (hps : ∀ k ∈ keysOf ps, k ≠ t) (h : ∀ op ∈ ops, Op.tok op ≠ t) :
    ∀ k ∈ keysOf (applyOps ps ops), k ≠ t := by
  induction ops generalizing ps with
  | nil => simpa [applyOps] using hps
  | cons op ops ih =>
    have hstep : ∀ k ∈ keysOf (applyOp ps op), k ≠ t := by
      intro k hk
      cases op with
      | reserveOp t2 instId =>
        rcases mem_keysOf_setKey ps t2 (.jsObj instId) hk with h2 | h2
        · subst h2; exact h _ (List.mem_cons_self _ _)
        · exact hps k h2
      | providerOp t2 v =>
        rcases mem_keysOf_setKey ps t2 v hk with h2 | h2
        · subst h2; exact h _ (List.mem_cons_self _ _)
        · exact hps k h2
    have hrest : ∀ op2 ∈ ops, Op.tok op2 ≠ t := by
      intro op2 hop2
      exact h op2 (List.mem_cons_of_mem _ hop2)
    exact ih (applyOp ps op) hstep hrest

/-! Claim theorems. -/

/-- C1 (counterexample): the claim is false for falsy values. With the
falsy value 0 overridden for token "t" (no prior entry needed), `resolve`
does not return 0; it throws the no-provider error, because the source
tests the truthiness of the value found by lodash `find`. -/
theorem C1_falsy_override_not_returned :
    Container.resolve (Container.provider [] ⟨JSValue.jsNum 0, "t"⟩) "t" ≠
        Except.ok (JSValue.jsNum 0) ∧
      Container.resolve (Container.provider [] ⟨JSValue.jsNum 0, "t"⟩) "t" =
        Except.error "No provider found for t" :=
  ⟨fun h => Except.noConfusion h, rfl⟩

/-- C1 (amended): after the override `Container.provider` with token `t`
and value `v`, `resolve t` returns exactly `v` (same identity, no copying)
whenever `v` is truthy, regardless of any prior entry for `t`; when `v` is
falsy (0, empty string, false, null, undefined) `resolve t` instead throws
the no-provider error. The right-hand side does not depend on the prior
providers `ps`. -/
theorem C1_override_then_resolve (ps : Providers)
    (d : Container.IContainerProvider) :
    Container.resolve (Container.provider ps d) d.token =
      (if truthy d.userValue then Except.ok d.userValue
       else Except.error ("No provider found for " ++ d.token)) :=
  resolve_setKey ps d.token d.userValue

/-- C2: for every token `t` never registered (reserve) or overridden
(provider) in the whole mutation history of the container, `resolve t`
throws the error built from the template "No provider found for " and the
token, and that message contains `t` as a substring; in particular this
covers resolving "nonexistent" on a container with no registrations. -/
theorem C2_unregistered_token_resolve_throws (ops : List Op) (t : String)
    (h : ∀ op ∈ ops, Op.tok op ≠ t) :
    Container.resolve (applyOps [] ops) t =
        Except.error ("No provider found for " ++ t) ∧
      containsSubstr ("No provider found for " ++ t) t := by
  constructor
  · apply resolve_of_no_key
    apply keys_applyOps_avoid ops t []
    · intro k hk
      simp [keysOf] at hk
    · exact h
  · exact ⟨"No provider found for ", "", by rw [String.append_empty]⟩

/-- Witness for C2: the spec's concrete scenario, resolving "nonexistent"
on a freshly created container with an empty mutation history. -/
theorem C2_witness :
    Container.resolve (applyOps [] []) "nonexistent" =
        Except.error "No provider found for nonexistent" ∧
      containsSubstr "No provider found for nonexistent" "nonexistent" :=
  C2_unregistered_token_resolve_throws [] "nonexistent"
    (fun op hop => absurd hop (List.not_mem_nil op))

/-- C3 (counterexample): with the mock whose `getCurrentDate` returns the
string "2020-08-12" overridden for "timeService", constructing `Consumer`
does NOT succeed with currentDate "2020-08-12": the constructor calls
`toISOString()` on the returned string, which raises a TypeError. The
mock is still invoked exactly once before the failure. -/
theorem C3_mock_string_construction_fails :
    consumerConstruct "2026-10-12T00:00:00.000Z" overriddenPs =
        (Except.error JSErr.typeError, 1) ∧
      consumerConstruct "2026-10-12T00:00:00.000Z" overriddenPs ≠
        (Except.ok "2020-08-12", 1) :=
  ⟨rfl, fun h => Except.noConfusion (congrArg Prod.fst h)⟩

/-- C3 (amended): after the override with the mock, constructing
`Consumer` invokes the mock's `getCurrentDate` exactly once with no
arguments, but construction then fails with a TypeError because the
constructor calls `toISOString()` on the returned string "2020-08-12";
had the mock returned a Date-like object whose `toISOString()` yields
"2020-08-12", construction would succeed with `currentDate` exactly
"2020-08-12" and again exactly one invocation. Both facts hold for every
ambient clock reading `now`, so the real clock plays no part. -/
theorem C3_consumer_scenario :
    (∀ now : String,
      consumerConstruct now overriddenPs =
        (Except.error JSErr.typeError, 1)) ∧
      (∀ now : String,
        consumerConstruct now
            (Container.provider loadedPs
              ⟨JSValue.mockGetCurrentDate 7 (JSValue.dateObj 2 "2020-08-12"),
                "timeService"⟩) =
          (Except.ok "2020-08-12", 1)) :=
  ⟨fun _ => rfl, fun _ => rfl⟩

/-- C4: last-write-wins per token. Registering two providers for the
same token `t` in sequence via `reserve` (each `new target()` succeeding
with an object instance): the first call stores its instance, the second
registration overwrites the first in place, a subsequent `resolve t`
returns only the second instance, and the providers map keeps at most one
live entry per key (no duplicate keys) throughout. -/
theorem C4_last_write_wins (ps : Providers) (t : String) (id1 id2 : Nat)
    (hu : keysUnique ps) :
    Container.reserveSt ps ps t (fun _ => Except.ok (JSValue.jsObj id1)) =
        (Except.ok (), ps, setKey ps t (JSValue.jsObj id1)) ∧
      Container.reserveSt (setKey ps t (JSValue.jsObj id1))
          (setKey ps t (JSValue.jsObj id1)) t
          (fun _ => Except.ok (JSValue.jsObj id2)) =
        (Except.ok (), setKey ps t (JSValue.jsObj id1),
          setKey (setKey ps t (JSValue.jsObj id1)) t (JSValue.jsObj id2)) ∧
      Container.resolve
          (setKey (setKey ps t (JSValue.jsObj id1)) t (JSValue.jsObj id2))
          t =
        Except.ok (JSValue.jsObj id2) ∧
      keysUnique (setKey ps t (JSValue.jsObj id1)) ∧
      keysUnique
        (setKey (setKey ps t (JSValue.jsObj id1)) t (JSValue.jsObj id2)) := by
  have h1 := keysUnique_setKey ps t (JSValue.jsObj id1) hu
  refine ⟨rfl, rfl, ?_, h1, keysUnique_setKey _ t (JSValue.jsObj id2) h1⟩
  rw [resolve_setKey]
  rfl

/-- Witness for C4 at an initially empty container and two concrete
registrations for token "svc". -/
theorem C4_witness :
    keysUnique ([] : Providers) ∧
      Container.resolve
          (setKey (setKey [] "svc" (JSValue.jsObj 1)) "svc"
            (JSValue.jsObj 2)) "svc" =
        Except.ok (JSValue.jsObj 2) :=
  ⟨List.nodup_nil,
    (C4_last_write_wins [] "svc" 1 2 List.nodup_nil).2.2.1⟩

/-- C5 (counterexample): the claim is false for a falsy overridden value.
After overriding "timeService" (which had a prior real registration) with
the value `false`, reading the `Inject("timeService")` property does not
return `false`: the getter's `resolve` call throws the no-provider error.
Note the read returns neither `false` nor the stale prior instance. -/
theorem C5_falsy_override_read_throws :
    injectGet "timeService"
        (Container.provider [("timeService", JSValue.timeServiceInst 0)]
          ⟨JSValue.jsBool false, "timeService"⟩) ≠
        Except.ok (JSValue.jsBool false) ∧
      injectGet "timeService"
        (Container.provider [("timeService", JSValue.timeServiceInst 0)]
          ⟨JSValue.jsBool false, "timeService"⟩) =
        Except.error "No provider found for timeService" :=
  ⟨fun h => Except.noConfusion h, rfl⟩

/-- C5 (amended): an `Inject(t)` property performs a fresh `resolve` on
every read, with no caching. After an override of `t` with value `v`, a
subsequent read returns exactly `v` when `v` is truthy and throws the
no-provider error when `v` is falsy; the outcome is independent of the
pre-override providers `ps`, so no stale value is ever returned. -/
theorem C5_inject_reflects_override (ps : Providers) (t : String)
    (v : JSValue) :
    injectGet t (Container.provider ps ⟨v, t⟩) =
      (if truthy v then Except.ok v
       else Except.error ("No provider found for " ++ t)) :=
  resolve_setKey ps t v

/-- C6 (counterexample): the claim is false for a falsy stored entry. The
token "svc" has an entry (the empty string) in the providers map, yet a
read of the `Inject("svc")` property returns no value at all: it throws
the no-provider error. -/
theorem C6_entry_present_but_read_throws :
    hasKey [("svc", JSValue.jsStr "")] "svc" = true ∧
      injectGet "svc" [("svc", JSValue.jsStr "")] =
        Except.error "No provider found for svc" :=
  ⟨rfl, rfl⟩

/-- C6 (amended): reads of an `Inject(t)` property are idempotent. For a
token with a stored entry `v` and no intervening container mutation,
every read in a sequence of `n` consecutive reads yields the same
outcome: when `v` is truthy, each read returns the very same value `v`
(the identical object, since object identity is part of the value); when
`v` is falsy, each read consistently throws the same no-provider error. -/
theorem C6_idempotent_reads (ps : Providers) (t : String) (v : JSValue)
    (n : Nat) (h : findVal ps t = some v) :
    (truthy v = true →
      ∀ r ∈ injectReads t ps n, r = Except.ok v) ∧
      (truthy v = false →
        ∀ r ∈ injectReads t ps n,
          r = Except.error ("No provider found for " ++ t)) := by
  have hres := resolve_of_findVal ps t v h
  constructor
  · intro htr r hr
    simp only [injectReads, List.mem_map] at hr
    obtain ⟨i, _, hi⟩ := hr
    rw [← hi]
    unfold injectGet
    rw [hres]
    simp [htr]
  · intro htr r hr
    simp only [injectReads, List.mem_map] at hr
    obtain ⟨i, _, hi⟩ := hr
    rw [← hi]
    unfold injectGet
    rw [hres]
    simp [htr]

/-- Witness for C6: a truthy object entry for "svc", one read out of a
sequence of reads, returning that same object. -/
theorem C6_witness :
    findVal [("svc", JSValue.jsObj 5)] "svc" = some (JSValue.jsObj 5) ∧
      injectGet "svc" [("svc", JSValue.jsObj 5)] =
        Except.ok (JSValue.jsObj 5) := by
  refine ⟨rfl, ?_⟩
  have h := (C6_idempotent_reads [("svc", JSValue.jsObj 5)] "svc"
      (JSValue.jsObj 5) 1 rfl).1 rfl
  have hmem : injectGet "svc" [("svc", JSValue.jsObj 5)] ∈
      injectReads "svc" [("svc", JSValue.jsObj 5)] 1 := by
    simp [injectReads]
  exact h _ hmem

/-- C7: applying `Injectable(token)` to a class runs `new target()`
exactly once, eagerly, at the moment of application (the allocation
counter advances by exactly one), and stores that instance in the
singleton map under the token. The class itself is untouched: user code
constructing it again afterwards allocates a second instance that is a
different object from the one the container stores. -/
theorem C7_injectable_eager_single_instance (token : String)
    (ps : Providers) (nextId : Nat) :
    injectableApply token ps nextId =
        (setKey ps token (JSValue.jsObj nextId), nextId + 1) ∧
      findVal (injectableApply token ps nextId).1 token =
        some (JSValue.jsObj nextId) ∧
      (construct (injectableApply token ps nextId).2).1 ≠
        JSValue.jsObj nextId ∧
      findVal (injectableApply token ps nextId).1 token ≠
        some (construct (injectableApply token ps nextId).2).1 := by
  refine ⟨rfl, findVal_setKey ps token _, ?_, ?_⟩
  · simp only [injectableApply, construct]
    intro h
    exact Nat.succ_ne_self nextId (JSValue.jsObj.inj h)
  · rw [show (injectableApply token ps nextId).1 =
        setKey ps token (JSValue.jsObj nextId) from rfl]
    rw [findVal_setKey]
    simp only [injectableApply, construct]
    intro h
    exact Nat.succ_ne_self nextId
      (JSValue.jsObj.inj (Option.some.inj h)).symm

/-- C8: `reserve` with a well-formed zero-argument factory (one whose
`new target()` produces an instance) never throws: it completes with the
instance stored in the singleton map. If the constructor itself throws,
that exact error propagates synchronously and unchanged to the caller,
with no wrapping and no suppression, and neither the receiver's map nor
the singleton map gains an entry for the token. -/
theorem C8_reserve_error_propagation (recv singl : Providers)
    (t : String) (target : Container.Ctor) :
    (∀ v, target () = Except.ok v →
      Container.reserveSt recv singl t target =
        (Except.ok (), recv, setKey singl t v)) ∧
      (∀ e, target () = Except.error e →
        Container.reserveSt recv singl t target =
          (Except.error e, recv, singl)) := by
  constructor
  · intro v hv
    unfold Container.reserveSt
    rw [hv]
  · intro e he
    unfold Container.reserveSt
    rw [he]

/-- Witness for C8: a constructor throwing "boom" propagates that exact
error and leaves both provider maps untouched, and a well-formed
constructor stores its instance without throwing. -/
theorem C8_witness :
    Container.reserveSt [] [("a", JSValue.jsObj 0)] "t"
        (fun _ => Except.error "boom") =
      (Except.error "boom", [], [("a", JSValue.jsObj 0)]) ∧
      Container.reserveSt [] [] "t" (fun _ => Except.ok (JSValue.jsObj 3)) =
        (Except.ok (), [], [("t", JSValue.jsObj 3)]) :=
  ⟨(C8_reserve_error_propagation [] [("a", JSValue.jsObj 0)] "t"
      (fun _ => Except.error "boom")).2 "boom" rfl,
    (C8_reserve_error_propagation [] [] "t"
      (fun _ => Except.ok (JSValue.jsObj 3))).1 (JSValue.jsObj 3) rfl⟩

/-- C9: `resolve` decides presence by the truthiness of the found value,
not by key existence. For every token with a stored entry `v`: an entry
exists in the providers map; when `v` is falsy, `resolve` still throws
the no-provider error; and `resolve` returns normally (with exactly the
stored `v`) precisely when `v` is truthy. -/
theorem C9_resolve_truthiness (ps : Providers) (t : String) (v : JSValue)
    (h : findVal ps t = some v) :
    hasKey ps t = true ∧
      (truthy v = false →
        Container.resolve ps t =
          Except.error ("No provider found for " ++ t)) ∧
      (Container.resolve ps t = Except.ok v ↔ truthy v = true) := by
  have hres := resolve_of_findVal ps t v h
  refine ⟨?_, ?_, ?_⟩
  · unfold findVal at h
    cases hf : ps.find? (fun e => e.1 == t) with
    | none => rw [hf] at h; simp at h
    | some e =>
      have hmem := List.mem_of_find?_eq_some hf
      have hpred := List.find?_some hf
      unfold hasKey
      rw [List.any_eq_true]
      exact ⟨e, hmem, hpred⟩
  · intro htr
    rw [hres]
    simp [htr]
  · cases htr : truthy v with
    | true =>
      rw [hres]
      simp [htr]
    | false =>
      rw [hres]
      simp only [htr, Bool.false_eq_true, if_false]
      constructor
      · intro hk
        exact Except.noConfusion hk
      · intro hk
        exact hk.elim

/-- Witness for C9: the falsy entry `false` stored under "flag" makes
`resolve` throw despite the entry existing. -/
theorem C9_witness :
    findVal [("flag", JSValue.jsBool false)] "flag" =
        some (JSValue.jsBool false) ∧
      hasKey [("flag", JSValue.jsBool false)] "flag" = true ∧
      Container.resolve [("flag", JSValue.jsBool false)] "flag" =
        Except.error "No provider found for flag" := by
  have h := C9_resolve_truthiness [("flag", JSValue.jsBool false)] "flag"
    (JSValue.jsBool false) rfl
  exact ⟨rfl, h.1, h.2.1 rfl⟩

/-- C10: `reserve` writes through the module-level singleton, not through
its receiver. Calling `reserve` on a container whose own map is
`recv` mutates the singleton map `singl` (which afterwards holds the new
instance under the token) while returning the receiver's own map
unchanged. -/
theorem C10_reserve_mutates_singleton (recv singl : Providers)
    (t : String) (inst : JSValue) :
    Container.reserveSt recv singl t (fun _ => Except.ok inst) =
        (Except.ok (), recv, setKey singl t inst) ∧
      (Container.reserveSt recv singl t (fun _ => Except.ok inst)).2.1 =
        recv ∧
      findVal
          (Container.reserveSt recv singl t
            (fun _ => Except.ok inst)).2.2 t =
        some inst :=
  ⟨rfl, rfl, findVal_setKey singl t inst⟩

end TaikiDI
